import Mathlib

set_option autoImplicit false

/-!
Shallow embedding of dbms/src/Storages/StorageDistributed.cpp: the distributed
table engine's query retargeting, read fan-out, write eligibility, directory
monitor management and column lookup.  External collaborators (parser AST
payloads, connection pools, the virtual column factory, the filesystem) are
modelled as opaque data carried through unchanged or as injected parameters.
-/

namespace DB

/-- Kind tag carried by an identifier node, mirroring ASTIdentifier::Kind. -/
inductive IdentifierKind where
  | Column
  | Database
  | Table
deriving DecidableEq, Repr

/-- Identifier AST node.  The source constructs retargeted identifiers as
ASTIdentifier{{}, name, kind}: an empty source-text range, the given name and
the given kind.  The range is modelled as an optional pair of positions, none
standing for the empty range. -/
structure ASTIdentifier where
  range : Option (Nat × Nat)
  name : String
  kind : IdentifierKind
deriving DecidableEq, Repr

/-- Select query AST: the database and table references are identifier child
nodes; every other clause (select list, where, ...) belongs to the external
parser collaborator and is folded into an opaque payload. -/
structure ASTSelectQuery where
  database : Option ASTIdentifier
  table : Option ASTIdentifier
  rest : String
deriving DecidableEq, Repr

/-- Insert query AST: database and table are bare strings; select is the
optional nested select of an INSERT SELECT form; the remaining clauses
(column list, format, inline data) are folded into an opaque payload. -/
structure ASTInsertQuery where
  database : String
  table : String
  select : Option ASTSelectQuery
  rest : String
deriving DecidableEq, Repr

/-- Sum of the AST node types that rewriteQuery is instantiated at. -/
inductive IAST where
  | selectQ (q : ASTSelectQuery)
  | insertQ (q : ASTInsertQuery)
deriving DecidableEq, Repr

/-- The template argument of rewriteQuery. -/
inductive ASTType where
  | selectT
  | insertT
deriving DecidableEq, Repr

/-- The clone method produces a deep, independent copy of an AST node; on an
immutable value the copy has the same contents (independence shows up as the
fresh heap cell allocated in rewriteQuery). -/
def IAST.clone (a : IAST) : IAST := a

/-- Whether a node is of the dynamic type named by an ASTType tag. -/
def IAST.hasType : IAST → ASTType → Bool
  | .selectQ _, .selectT => true
  | .insertQ _, .insertT => true
  | _, _ => false

/-- rewriteImpl for ASTSelectQuery: the database and table identifier child
nodes are replaced by freshly constructed identifiers. -/
def rewriteImplSelect (query : ASTSelectQuery) (database table : String) : ASTSelectQuery :=
  { query with
      database := some { range := none, name := database, kind := .Database }
      table := some { range := none, name := table, kind := .Table } }

/-- rewriteImpl for ASTInsertQuery: the bare database and table names are
overwritten and the nested select is nulled, so the result is never an
INSERT SELECT. -/
def rewriteImplInsert (query : ASTInsertQuery) (database table : String) : ASTInsertQuery :=
  { query with database := database, table := table, select := none }

/-- Dispatch of rewriteImpl through the dynamic cast: none models the throw
when the pointed-to node is not of the template type. -/
def rewriteImplAt (t : ASTType) (a : IAST) (database table : String) : Option IAST :=
  match t, a with
  | .selectT, .selectQ q => some (.selectQ (rewriteImplSelect q database table))
  | .insertT, .insertQ q => some (.insertQ (rewriteImplInsert q database table))
  | _, _ => none

/-- Heap of AST nodes: an ASTPtr is an index into this store.  The heap makes
it possible to state that rewriteQuery allocates a fresh node and leaves every
existing node, the input included, untouched. -/
abbrev ASTStore := List IAST

/-- rewriteQuery: clone the pointed-to query into a fresh cell, retarget the
clone in place, and return the pointer to the clone.  A none result models the
failure (invalid pointer or wrong node type) that cannot occur for well-formed
input. -/
def rewriteQuery (t : ASTType) (s : ASTStore) (p : Nat) (database table : String) :
    Option (ASTStore × Nat) :=
  match s[p]? with
  | none => none
  | some q =>
    let s1 : ASTStore := s ++ [q.clone]
    let p1 : Nat := s.length
    match s1[p1]? with
    | none => none
    | some a =>
      match rewriteImplAt t a database table with
      | none => none
      | some a1 => some (s1.set p1 a1, p1)

/-- Relation between an input node and a node that is identical to it except
for the replaced database/table reference (and, for inserts, the discarded
nested select). -/
def retargetedForm (a a1 : IAST) (database table : String) : Prop :=
  match a, a1 with
  | .selectQ q, .selectQ q1 =>
      q1.rest = q.rest ∧
      q1.database = some { range := none, name := database, kind := .Database } ∧
      q1.table = some { range := none, name := table, kind := .Table }
  | .insertQ q, .insertQ q1 =>
      q1.rest = q.rest ∧ q1.database = database ∧ q1.table = table ∧ q1.select = none
  | _, _ => False

/-- Opaque handle of one remote shard's connection pool (external collaborator). -/
structure ConnectionPool where
  id : Nat
deriving DecidableEq, Repr

/-- Cluster topology: the ordered remote connection pools (one per remote
shard) and the number of local replicas. -/
structure Cluster where
  pools : List ConnectionPool
  local_nodes_num : Nat
deriving DecidableEq, Repr

/-- Accessor mirroring Cluster::getLocalNodesNum. -/
def Cluster.getLocalNodesNum (c : Cluster) : Nat := c.local_nodes_num

/-- Saturating combination of a wait setting with an execution time limit,
as performed by the external Cluster collaborator: a zero limit leaves the
value unchanged, otherwise the value is capped by the limit. -/
def Cluster.saturate (v limit : Nat) : Nat :=
  if limit = 0 then v else min v limit

/-- Execution settings: the field adjusted by read plus the limit it reads;
all other settings are an opaque payload. -/
structure Settings where
  queue_max_wait_ms : Nat
  max_execution_time : Nat
  rest : String
deriving DecidableEq, Repr

/-- Opaque handle of an externally supplied temporary table. -/
abbrev TempTable := Nat

/-- Execution context: its settings and its registered external tables;
everything else the external Context collaborator holds is opaque payload. -/
structure Context where
  settings : Settings
  external_tables : List (String × TempTable)
  rest : String
deriving DecidableEq, Repr

/-- Context::tryGetExternalTable: the first registration under the name. -/
def Context.tryGetExternalTable (ctx : Context) (name : String) : Option TempTable :=
  ctx.external_tables.lookup name

/-- Context::addExternalTable: registers one more external table. -/
def Context.addExternalTable (ctx : Context) (name : String) (t : TempTable) : Context :=
  { ctx with external_tables := ctx.external_tables ++ [(name, t)] }

/-- QueryProcessingStage::Enum. -/
inductive QueryProcessingStage where
  | FetchColumns
  | WithMergeableState
  | Complete
deriving DecidableEq, Repr

/-- Serialization of a retargeted select query to the text sent to remote
shards, standing for the external queryToString collaborator. -/
def queryToString (q : ASTSelectQuery) : String :=
  (match q.database with | none => "" | some d => d.name) ++ "|" ++
  (match q.table with | none => "" | some t => t.name) ++ "|" ++ q.rest

/-- One result stream returned by read: either a remote stream carrying the
serialized retargeted query, the adjusted settings, the external tables and
the processed stage to one pool, or an in-process execution of the retargeted
AST in a derived context. -/
inductive BlockInputStream where
  | remote (pool : ConnectionPool) (query : String) (settings : Settings)
      (external : List (String × TempTable)) (stage : QueryProcessingStage)
  | localExec (query_ast : ASTSelectQuery) (ctx : Context) (stage : QueryProcessingStage)
deriving DecidableEq, Repr

/-- One entry of a directory listing. -/
structure DirEntry where
  name : String
  isDirectory : Bool
deriving DecidableEq, Repr

/-- Filesystem state: the set of existing directories and, per directory
path, its listing.  Only the table's spool tree is ever touched. -/
structure FileSystem where
  dirs : List String
  entries : List (String × List DirEntry)
deriving DecidableEq, Repr

/-- Listing of a directory (empty when the path is unknown). -/
def FileSystem.entriesOf (fs : FileSystem) (p : String) : List DirEntry :=
  (fs.entries.lookup p).getD []

/-- Poco File createDirectory: creates the directory only when it does not
exist yet, so the operation is idempotent. -/
def FileSystem.createDirectory (fs : FileSystem) (p : String) : FileSystem :=
  if p ∈ fs.dirs then fs else { dirs := p :: fs.dirs, entries := (p, []) :: fs.entries }

/-- Escape of a table name for use as a directory name (repository helper
escapeForFileName): word characters are kept, anything else becomes a percent
escape. -/
def escapeForFileName (s : String) : String :=
  s.data.foldl (fun acc c =>
    if c.isAlphanum || c = '_' then acc.push c
    else ((acc.push '%').push (Nat.toDigits 16 c.toNat).headI)) ""

/-- Background delivery component of one shard's spool directory; it keeps a
non-owning back-reference (the directory name) to locate its resources, and
its in-memory state is opaque to the table. -/
structure DirectoryMonitor where
  name : String
deriving DecidableEq, Repr

/-- Insertion with emplace semantics into the monitor mapping: a present key
is left untouched, an absent key gets exactly one new entry. -/
def emplaceMonitor (ms : List (String × DirectoryMonitor)) (name : String)
    (m : DirectoryMonitor) : List (String × DirectoryMonitor) :=
  if (ms.lookup name).isSome then ms else ms ++ [(name, m)]

/-- Opaque compiled sharding key expression: the external expression analyzer
returns a callable; only its presence and source column name matter here. -/
structure ExpressionActions where
  source_column : String
deriving DecidableEq, Repr

/-- Sharding key AST handed to the constructor; getColumnName is the external
collaborator's name for the expression. -/
structure ShardingKeyAST where
  column_name : String
deriving DecidableEq, Repr

def ShardingKeyAST.getColumnName (k : ShardingKeyAST) : String := k.column_name

/-- The distributed table facade: every field initialized by the constructor
plus the mutable monitor mapping and the read path's external table
registrations. -/
structure StorageDistributed where
  name : String
  columns : List (String × String)
  remote_database : String
  remote_table : String
  context : Context
  cluster : Cluster
  sharding_key_expr : Option ExpressionActions
  sharding_key_column_name : String
  write_enabled : Bool
  path : String
  directory_monitors : List (String × DirectoryMonitor)
  external_tables : List (String × TempTable)
deriving DecidableEq, Repr

/-- StorageDistributed::createDirectoryMonitor: emplaces a monitor for the
named spool subdirectory. -/
def StorageDistributed.createDirectoryMonitor (s : StorageDistributed) (name : String) :
    StorageDistributed :=
  { s with directory_monitors := emplaceMonitor s.directory_monitors name ⟨name⟩ }

/-- StorageDistributed::createDirectoryMonitors: idempotently creates the
spool base directory, then creates one monitor per subdirectory found in it;
non-directory entries are skipped. -/
def StorageDistributed.createDirectoryMonitors (s : StorageDistributed) (fs : FileSystem) :
    StorageDistributed × FileSystem :=
  let fs1 := fs.createDirectory s.path
  let s1 := (fs1.entriesOf s.path).foldl
    (fun acc e => if e.isDirectory then acc.createDirectoryMonitor e.name else acc) s
  (s1, fs1)

/-- StorageDistributed::requireDirectoryMonitor: creates a monitor for the
name only when none exists yet. -/
def StorageDistributed.requireDirectoryMonitor (s : StorageDistributed) (name : String) :
    StorageDistributed :=
  if (s.directory_monitors.lookup name).isSome then s else s.createDirectoryMonitor name

/-- The StorageDistributed constructor: initializes every field from its
arguments (write_enabled once, from the topology and the presence of a
sharding key; the spool path from the escaped table name) and runs
createDirectoryMonitors on the filesystem. -/
def StorageDistributed.construct (name_ : String) (columns_ : List (String × String))
    (remote_database_ remote_table_ : String) (cluster_ : Cluster) (context_ : Context)
    (sharding_key_ : Option ShardingKeyAST) (data_path_ : String) (fs : FileSystem) :
    StorageDistributed × FileSystem :=
  let s : StorageDistributed :=
    { name := name_
      columns := columns_
      remote_database := remote_database_
      remote_table := remote_table_
      context := context_
      cluster := cluster_
      sharding_key_expr := sharding_key_.map fun k => ⟨k.getColumnName⟩
      sharding_key_column_name :=
        match sharding_key_ with
        | some k => k.getColumnName
        | none => ""
      write_enabled :=
        decide (cluster_.getLocalNodesNum + cluster_.pools.length < 2) || sharding_key_.isSome
      path := data_path_ ++ escapeForFileName name_ ++ "/"
      directory_monitors := []
      external_tables := [] }
  s.createDirectoryMonitors fs

/-- StorageDistributed::shutdown clears the monitor mapping (destroying the
monitors stops their background tasks); it performs no filesystem operation,
so the spool state is passed through unchanged. -/
def StorageDistributed.shutdown (s : StorageDistributed) (fs : FileSystem) :
    StorageDistributed × FileSystem :=
  ({ s with directory_monitors := [] }, fs)

/-- Registration of the caller's external tables into the derived local
context: each one is added only when the context does not already hold an
external table of that name. -/
def addMissingExternalTables (ctx : Context) (ets : List (String × TempTable)) : Context :=
  ets.foldl (fun c it =>
    if (c.tryGetExternalTable it.1).isSome then c else c.addExternalTable it.1 it.2) ctx

/-- StorageDistributed::read: adjusts the settings, derives the processed
stage from the target count, retargets the select query once, opens one
remote stream per pool (in pool order) and one local execution per local
replica (the derived context carries the adjusted settings and the external
tables), and finally clears the external table registrations.  Returns the
processed stage, the streams, and the table state after the call. -/
def StorageDistributed.read (s : StorageDistributed) (column_names : List String)
    (query : ASTSelectQuery) (settings : Settings) (max_block_size : Nat) (threads : Nat) :
    QueryProcessingStage × List BlockInputStream × StorageDistributed :=
  let new_settings : Settings :=
    { settings with
        queue_max_wait_ms := Cluster.saturate settings.queue_max_wait_ms settings.max_execution_time }
  let result_size := s.cluster.pools.length + s.cluster.getLocalNodesNum
  let processed_stage :=
    if result_size = 1 then QueryProcessingStage.Complete
    else QueryProcessingStage.WithMergeableState
  let modified_query_ast := rewriteImplSelect query s.remote_database s.remote_table
  let modified_query := queryToString modified_query_ast
  let remote_streams := s.cluster.pools.map fun conn_pool =>
    BlockInputStream.remote conn_pool modified_query new_settings s.external_tables processed_stage
  let local_streams :=
    if 0 < s.cluster.getLocalNodesNum then
      let new_context := addMissingExternalTables
        { s.context with settings := new_settings } s.external_tables
      (List.range s.cluster.getLocalNodesNum).map fun _ =>
        BlockInputStream.localExec modified_query_ast new_context processed_stage
    else []
  (processed_stage, remote_streams ++ local_streams, { s with external_tables := [] })

/-- Error codes thrown by this translation unit. -/
inductive ErrorCodes where
  | STORAGE_REQUIRES_PARAMETER
deriving DecidableEq, Repr

/-- An exception value: its message and its code. -/
structure DBException where
  message : String
  code : ErrorCodes
deriving DecidableEq, Repr

/-- The sink returned by write: it is built over the owning table and the
retargeted insert query. -/
structure DistributedBlockOutputStream where
  storage_name : String
  query : ASTInsertQuery
deriving DecidableEq, Repr

/-- IStorage::getName for this engine. -/
def StorageDistributed.getName (_s : StorageDistributed) : String := "Distributed"

/-- StorageDistributed::write: throws when write_enabled is false, otherwise
returns a sink over the retargeted insert query. -/
def StorageDistributed.write (s : StorageDistributed) (query : ASTInsertQuery) :
    Except DBException DistributedBlockOutputStream :=
  if !s.write_enabled then
    Except.error
      { message := "Method write is not supported by storage " ++ s.getName ++
          " with more than one shard and no sharding key provided"
        code := ErrorCodes.STORAGE_REQUIRES_PARAMETER }
  else
    Except.ok
      { storage_name := s.name
        query := rewriteImplInsert query s.remote_database s.remote_table }

/-- The virtual column factory is an external collaborator; it is injected as
the pair of its two queries, the optional type of a virtual column and the
membership test. -/
structure VirtualColumnFactory where
  tryGetType : String → Option String
  hasColumn : String → Bool

/-- Lookup of a real (declared) column.
Modelled from the spec: ITableDeclaration::getRealColumn is repository code
outside this translation unit; on-disk table schema management is out of
scope, so it is modelled as lookup of the name among the table's declared
columns (the source throws when the name is absent, modelled as none). -/
def StorageDistributed.getRealColumn (s : StorageDistributed) (column_name : String) :
    Option (String × String) :=
  (s.columns.lookup column_name).map fun t => (column_name, t)

/-- Membership of a real (declared) column.
Modelled from the spec: ITableDeclaration::hasRealColumn is repository code
outside this translation unit; it is modelled as membership of the name among
the table's declared columns. -/
def StorageDistributed.hasRealColumn (s : StorageDistributed) (column_name : String) : Bool :=
  (s.columns.lookup column_name).isSome

/-- StorageDistributed::getColumn: the virtual column factory is consulted
first; only when it does not recognise the name is the real column returned. -/
def StorageDistributed.getColumn (vcf : VirtualColumnFactory) (s : StorageDistributed)
    (column_name : String) : Option (String × String) :=
  match vcf.tryGetType column_name with
  | some type => some (column_name, type)
  | none => s.getRealColumn column_name

/-- StorageDistributed::hasColumn: a name is a column when the virtual column
factory knows it or a real column carries it. -/
def StorageDistributed.hasColumn (vcf : VirtualColumnFactory) (s : StorageDistributed)
    (column_name : String) : Bool :=
  vcf.hasColumn column_name || s.hasRealColumn column_name

/-- Projection of a stream to the remote pool it targets, none for a local
execution. -/
def BlockInputStream.shardTarget : BlockInputStream → Option ConnectionPool
  | .remote pool _ _ _ _ => some pool
  | .localExec _ _ _ => none

/-- Projection of a stream to the external tables it carries to a remote
shard, none for a local execution. -/
def BlockInputStream.externalOf : BlockInputStream → Option (List (String × TempTable))
  | .remote _ _ _ ext _ => some ext
  | .localExec _ _ _ => none

/-- Projection of a stream to the context a local execution runs in, none for
a remote stream. -/
def BlockInputStream.ctxOf : BlockInputStream → Option Context
  | .remote _ _ _ _ _ => none
  | .localExec _ ctx _ => some ctx

lemma lookupAppend {β : Type} (l₁ l₂ : List (String × β)) (a : String) :
    (l₁ ++ l₂).lookup a = ((l₁.lookup a).or (l₂.lookup a)) := by
  induction l₁ with
  | nil => simp [List.lookup]
  | cons h t ih =>
    simp only [List.cons_append, List.lookup]
    split <;> simp [ih]

/-- Concrete settings used to exercise the theorems on closed inputs. -/
def sampleSettings : Settings :=
  { queue_max_wait_ms := 5, max_execution_time := 3, rest := "defaults" }

/-- Concrete context used to exercise the theorems on closed inputs. -/
def sampleContext : Context :=
  { settings := sampleSettings, external_tables := [], rest := "ctx" }

/-- Concrete virtual column factory recognising a single virtual column. -/
def sampleVCF : VirtualColumnFactory :=
  { tryGetType := fun n => if n == "_table" then some "String" else none
    hasColumn := fun n => n == "_table" }

/-- Concrete table state used to exercise the theorems on closed inputs; it
declares a real column under the virtual column's name to exhibit precedence. -/
def sampleTable : StorageDistributed :=
  { name := "t"
    columns := [("x", "UInt64"), ("_table", "UInt64")]
    remote_database := "rd"
    remote_table := "rt"
    context := sampleContext
    cluster := { pools := [⟨0⟩, ⟨1⟩], local_nodes_num := 1 }
    sharding_key_expr := none
    sharding_key_column_name := ""
    write_enabled := false
    path := "/data/t/"
    directory_monitors := []
    external_tables := [("tmp", 7)] }

/-- C3: rewriteQuery (select and insert variant alike) never mutates the
input query: on a store holding the input at pointer p with the matching node
type, it succeeds, returns a pointer to a freshly allocated node, leaves every
pre-existing node (the input included) unchanged, and the fresh node is
identical to the input except for the replaced database/table reference (and,
for inserts, the discarded nested select). -/
theorem rewriteQuery_fresh_and_frame (t : ASTType) (s : ASTStore) (p : Nat) (a : IAST)
    (database table : String) (hp : s[p]? = some a) (ht : a.hasType t = true) :
    ∃ s1 p1, rewriteQuery t s p database table = some (s1, p1) ∧
      p1 = s.length ∧
      (∀ i, i < s.length → s1[i]? = s[i]?) ∧
      ∃ a1, s1[p1]? = some a1 ∧ retargetedForm a a1 database table := by
  have frame : ∀ (b : IAST) (i : Nat), i < s.length → (s ++ [b])[i]? = s[i]? := by
    intro b i h
    simp [List.getElem?_append, h]
  cases t with
  | selectT =>
    cases a with
    | insertQ q => simp [IAST.hasType] at ht
    | selectQ q =>
      refine ⟨s ++ [.selectQ (rewriteImplSelect q database table)], s.length, ?_, rfl,
        frame _, ⟨_, List.getElem?_concat_length _ _, ?_⟩⟩
      · simp [rewriteQuery, hp, IAST.clone, rewriteImplAt, List.getElem?_concat_length,
          List.set_append]
      · simp [retargetedForm, rewriteImplSelect]
  | insertT =>
    cases a with
    | selectQ q => simp [IAST.hasType] at ht
    | insertQ q =>
      refine ⟨s ++ [.insertQ (rewriteImplInsert q database table)], s.length, ?_, rfl,
        frame _, ⟨_, List.getElem?_concat_length _ _, ?_⟩⟩
      · simp [rewriteQuery, hp, IAST.clone, rewriteImplAt, List.getElem?_concat_length,
          List.set_append]
      · simp [retargetedForm, rewriteImplInsert]

/-- C3 witness: the theorem applied to a concrete one-node store shows the
rewrite succeeding there. -/
theorem rewriteQuery_fresh_and_frame_witness :
    ([IAST.selectQ { database := none, table := none, rest := "r" }] : ASTStore)[0]? =
        some (IAST.selectQ { database := none, table := none, rest := "r" }) ∧
      (IAST.selectQ { database := none, table := none, rest := "r" }).hasType .selectT = true ∧
      (rewriteQuery .selectT
          [IAST.selectQ { database := none, table := none, rest := "r" }] 0 "db"
          "tbl").isSome = true := by
  refine ⟨rfl, rfl, ?_⟩
  obtain ⟨s1, p1, h, -⟩ :=
    rewriteQuery_fresh_and_frame .selectT
      [IAST.selectQ { database := none, table := none, rest := "r" }] 0
      (IAST.selectQ { database := none, table := none, rest := "r" }) "db" "tbl" rfl rfl
  simp [h]

/-- C4: the insert-variant rewriteImpl overwrites the query's database and
table identifier strings with the given pair and nulls the nested select, so
a retargeted insert never embeds an insert-from-select form; all other
content of the query is preserved. -/
theorem rewriteImplInsert_overwrites_and_discards_select (q : ASTInsertQuery)
    (database table : String) :
    (rewriteImplInsert q database table).database = database ∧
      (rewriteImplInsert q database table).table = table ∧
      (rewriteImplInsert q database table).select = none ∧
      (rewriteImplInsert q database table).rest = q.rest :=
  ⟨rfl, rfl, rfl, rfl⟩

/-- C6: requireDirectoryMonitor is idempotent: it leaves the table unchanged
when a monitor for the name exists, adds exactly one entry under that key
otherwise, a second call with the same name changes nothing more, and the
entry of any other name is never removed or replaced. -/
theorem requireDirectoryMonitor_idempotent (s : StorageDistributed) (name other : String)
    (hne : other ≠ name) :
    (s.requireDirectoryMonitor name).requireDirectoryMonitor name =
        s.requireDirectoryMonitor name ∧
      s.requireDirectoryMonitor name =
        { s with directory_monitors :=
            if (s.directory_monitors.lookup name).isSome then s.directory_monitors
            else s.directory_monitors ++ [(name, ⟨name⟩)] } ∧
      ((s.requireDirectoryMonitor name).directory_monitors.lookup other) =
        s.directory_monitors.lookup other := by
  have hsingle : ∀ m : DirectoryMonitor, ([(name, m)].lookup other) = none := by
    intro m
    simp [List.lookup, beq_eq_false_iff_ne.mpr hne]
  by_cases h : (s.directory_monitors.lookup name).isSome
  · refine ⟨?_, ?_, ?_⟩
    · simp [StorageDistributed.requireDirectoryMonitor, h]
    · simp [StorageDistributed.requireDirectoryMonitor, h]
    · simp [StorageDistributed.requireDirectoryMonitor, h]
  · have happ : ((s.directory_monitors ++ [(name, (⟨name⟩ : DirectoryMonitor))]).lookup
        name).isSome := by
      rw [lookupAppend]
      rcases h' : s.directory_monitors.lookup name with _ | m
      · simp [List.lookup]
      · exact absurd (by simp [h']) h
    refine ⟨?_, ?_, ?_⟩
    · simp [StorageDistributed.requireDirectoryMonitor, h,
        StorageDistributed.createDirectoryMonitor, emplaceMonitor, happ]
    · simp [StorageDistributed.requireDirectoryMonitor, h,
        StorageDistributed.createDirectoryMonitor, emplaceMonitor]
    · simp [StorageDistributed.requireDirectoryMonitor, h,
        StorageDistributed.createDirectoryMonitor, emplaceMonitor, lookupAppend, hsingle]

/-- C6 witness: the theorem applied to a concrete table and names. -/
theorem requireDirectoryMonitor_idempotent_witness :
    ("b" : String) ≠ "a" ∧
      ((sampleTable.requireDirectoryMonitor "a").requireDirectoryMonitor "a" =
          sampleTable.requireDirectoryMonitor "a" ∧
        sampleTable.requireDirectoryMonitor "a" =
          { sampleTable with directory_monitors :=
              if (sampleTable.directory_monitors.lookup "a").isSome then
                sampleTable.directory_monitors
              else sampleTable.directory_monitors ++ [("a", ⟨"a"⟩)] } ∧
        ((sampleTable.requireDirectoryMonitor "a").directory_monitors.lookup "b") =
          sampleTable.directory_monitors.lookup "b") :=
  ⟨by decide, requireDirectoryMonitor_idempotent sampleTable "a" "b" (by decide)⟩

lemma filterMap_const_some {α β : Type} (l : List α) (c : β) :
    l.filterMap (fun _ => some c) = List.replicate l.length c := by
  induction l with
  | nil => rfl
  | cons h t ih => simp [List.filterMap_cons, ih, List.replicate_succ]

lemma addMissing_preserves (ets : List (String × TempTable)) (ctx : Context) (m : String)
    (h : (ctx.tryGetExternalTable m).isSome = true) :
    ((addMissingExternalTables ctx ets).tryGetExternalTable m).isSome = true := by
  induction ets generalizing ctx with
  | nil => exact h
  | cons e rest ih =>
    simp only [addMissingExternalTables, List.foldl_cons] at *
    apply ih
    by_cases hc : (ctx.tryGetExternalTable e.1).isSome
    · simpa [hc] using h
    · simp only [hc, if_false, Bool.false_eq_true]
      simp only [Context.tryGetExternalTable, Context.addExternalTable, lookupAppend,
        Option.isSome_or] at h ⊢
      simp [h]

lemma addMissing_isSome (ets : List (String × TempTable)) (ctx : Context) :
    ∀ nt ∈ ets, ((addMissingExternalTables ctx ets).tryGetExternalTable nt.1).isSome = true := by
  induction ets generalizing ctx with
  | nil => intro nt h; cases h
  | cons e rest ih =>
    intro nt h
    rcases List.mem_cons.mp h with h | h
    · subst h
      simp only [addMissingExternalTables, List.foldl_cons]
      apply addMissing_preserves
      by_cases hc : (ctx.tryGetExternalTable nt.1).isSome
      · simp [hc]
      · simp only [hc, if_false, Bool.false_eq_true]
        simp [Context.tryGetExternalTable, Context.addExternalTable, lookupAppend,
          Option.isSome_or, List.lookup]
    · simpa only [addMissingExternalTables, List.foldl_cons] using
        ih (if (ctx.tryGetExternalTable e.1).isSome then ctx
          else ctx.addExternalTable e.1 e.2) nt h

/-- C2: read sets the processed stage out-parameter to Complete exactly when
the target count (remote pool count plus local replica count) equals one, and
to WithMergeableState whenever the target count is greater than one. -/
theorem read_processed_stage (s : StorageDistributed) (column_names : List String)
    (query : ASTSelectQuery) (settings : Settings) (max_block_size threads : Nat) :
    ((s.read column_names query settings max_block_size threads).1 =
        QueryProcessingStage.Complete ↔
      s.cluster.pools.length + s.cluster.getLocalNodesNum = 1) ∧
    (1 < s.cluster.pools.length + s.cluster.getLocalNodesNum →
      (s.read column_names query settings max_block_size threads).1 =
        QueryProcessingStage.WithMergeableState) := by
  constructor
  · by_cases h : s.cluster.pools.length + s.cluster.getLocalNodesNum = 1 <;>
      simp [StorageDistributed.read, h]
  · intro h
    have h1 : ¬(s.cluster.pools.length + s.cluster.getLocalNodesNum = 1) := by omega
    simp [StorageDistributed.read, h1]

/-- C2 witness: on a table whose cluster has two remote pools and one local
replica the target count exceeds one and the stage is WithMergeableState. -/
theorem read_processed_stage_witness :
    ((sampleTable.read ["x"] { database := none, table := none, rest := "q" }
          sampleSettings 100 2).1 = QueryProcessingStage.Complete ↔
      sampleTable.cluster.pools.length + sampleTable.cluster.getLocalNodesNum = 1) ∧
    (1 < sampleTable.cluster.pools.length + sampleTable.cluster.getLocalNodesNum ∧
      (sampleTable.read ["x"] { database := none, table := none, rest := "q" }
          sampleSettings 100 2).1 = QueryProcessingStage.WithMergeableState) :=
  ⟨(read_processed_stage sampleTable ["x"] _ sampleSettings 100 2).1,
    by decide,
    (read_processed_stage sampleTable ["x"] _ sampleSettings 100 2).2 (by decide)⟩

/-- C5: read returns exactly remote-pool-count plus local-replica-count
streams, one remote stream per pool first, in the cluster's pool order,
followed by one local execution stream per local replica. -/
theorem read_streams_order (s : StorageDistributed) (column_names : List String)
    (query : ASTSelectQuery) (settings : Settings) (max_block_size threads : Nat) :
    ((s.read column_names query settings max_block_size threads).2.1.length =
        s.cluster.pools.length + s.cluster.getLocalNodesNum) ∧
    ((s.read column_names query settings max_block_size threads).2.1.map
        BlockInputStream.shardTarget =
      s.cluster.pools.map some ++ List.replicate s.cluster.getLocalNodesNum none) := by
  by_cases h : 0 < s.cluster.getLocalNodesNum
  · constructor
    · simp [StorageDistributed.read, h]
    · simp [StorageDistributed.read, h, List.map_map, Function.comp,
        BlockInputStream.shardTarget, List.map_const']
  · have h0 : s.cluster.getLocalNodesNum = 0 := by omega
    constructor
    · simp [StorageDistributed.read, h, h0]
    · simp [StorageDistributed.read, h, h0, List.map_map, Function.comp,
        BlockInputStream.shardTarget]

/-- C9: read passes the registered external tables to each remote stream it
opens and makes each registered name visible to the local executions, and the
table state after read has an empty external table registration. -/
theorem read_clears_external_tables (s : StorageDistributed) (column_names : List String)
    (query : ASTSelectQuery) (settings : Settings) (max_block_size threads : Nat) :
    ((s.read column_names query settings max_block_size threads).2.2.external_tables = []) ∧
    ((s.read column_names query settings max_block_size threads).2.1.filterMap
        BlockInputStream.externalOf =
      List.replicate s.cluster.pools.length s.external_tables) ∧
    (∀ ctx ∈ (s.read column_names query settings max_block_size threads).2.1.filterMap
        BlockInputStream.ctxOf,
      ∀ nt ∈ s.external_tables, (ctx.tryGetExternalTable nt.1).isSome = true) := by
  refine ⟨?_, ?_, ?_⟩
  · simp [StorageDistributed.read]
  · by_cases h : 0 < s.cluster.getLocalNodesNum <;>
      simp [StorageDistributed.read, h, List.filterMap_append, List.filterMap_map,
        Function.comp_def, BlockInputStream.externalOf, filterMap_const_some]
  · intro ctx hctx nt hnt
    by_cases h : 0 < s.cluster.getLocalNodesNum
    · simp [StorageDistributed.read, h, List.filterMap_append, List.filterMap_map,
        Function.comp_def, BlockInputStream.ctxOf, filterMap_const_some,
        List.mem_replicate] at hctx
      rcases hctx with ⟨-, rfl⟩
      exact addMissing_isSome _ _ nt hnt
    · simp [StorageDistributed.read, h, List.filterMap_map, Function.comp_def,
        BlockInputStream.ctxOf] at hctx

/-- C9 witness: on a concrete table with one registered external table, the
registrations are cleared and the first local execution context resolves the
registered name. -/
theorem read_clears_external_tables_witness :
    ((sampleTable.read ["x"] { database := none, table := none, rest := "q" }
        sampleSettings 100 2).2.2.external_tables = []) ∧
    ((((sampleTable.read ["x"] { database := none, table := none, rest := "q" }
          sampleSettings 100 2).2.1.filterMap BlockInputStream.ctxOf).getD 0
        sampleContext).tryGetExternalTable "tmp").isSome = true :=
  ⟨(read_clears_external_tables sampleTable ["x"]
      { database := none, table := none, rest := "q" } sampleSettings 100 2).1,
    (read_clears_external_tables sampleTable ["x"]
      { database := none, table := none, rest := "q" } sampleSettings 100 2).2.2
      _ (by decide) ("tmp", 7) (by decide)⟩

lemma foldl_createDirectoryMonitor (l : List DirEntry) (s : StorageDistributed) :
    l.foldl (fun acc e => if e.isDirectory then acc.createDirectoryMonitor e.name else acc) s =
      { s with directory_monitors :=
          (l.foldl (fun ms e => if e.isDirectory then emplaceMonitor ms e.name ⟨e.name⟩ else ms)
            s.directory_monitors) } := by
  induction l generalizing s with
  | nil => rfl
  | cons e t ih =>
    by_cases hd : e.isDirectory
    · simp only [List.foldl_cons, hd, if_true]
      rw [ih]
      simp [StorageDistributed.createDirectoryMonitor]
    · simp only [List.foldl_cons, hd]
      rw [ih]
      simp [hd]

lemma foldl_emplace_of_nodup (l : List DirEntry) (ms : List (String × DirectoryMonitor))
    (hnd : (l.map DirEntry.name).Nodup)
    (hdis : ∀ e ∈ l, ms.lookup e.name = none) :
    l.foldl (fun ms e => if e.isDirectory then emplaceMonitor ms e.name ⟨e.name⟩ else ms) ms =
      ms ++ (l.filter (fun e => e.isDirectory)).map (fun e => (e.name, ⟨e.name⟩)) := by
  induction l generalizing ms with
  | nil => simp
  | cons e t ih =>
    simp only [List.map_cons, List.nodup_cons] at hnd
    obtain ⟨hne, hndt⟩ := hnd
    by_cases hd : e.isDirectory
    · have hl : ms.lookup e.name = none := hdis e (List.mem_cons_self e t)
      have hstep : emplaceMonitor ms e.name ⟨e.name⟩ = ms ++ [(e.name, ⟨e.name⟩)] := by
        simp [emplaceMonitor, hl]
      have hdis' : ∀ e' ∈ t,
          ((ms ++ [(e.name, (⟨e.name⟩ : DirectoryMonitor))]).lookup e'.name) = none := by
        intro e' he'
        rw [lookupAppend, hdis e' (List.mem_cons_of_mem e he')]
        have hne' : e'.name ≠ e.name := by
          intro hEq
          exact hne (hEq ▸ List.mem_map_of_mem DirEntry.name he')
        simp [List.lookup, beq_eq_false_iff_ne.mpr hne']
      simp only [List.foldl_cons, hd, if_true, hstep]
      rw [ih _ hndt hdis']
      simp [hd, List.filter_cons, List.append_assoc]
    · simp only [List.foldl_cons, hd]
      rw [if_neg (by simp [hd])]
      rw [ih _ hndt (fun e' he' => hdis e' (List.mem_cons_of_mem e he'))]
      simp [hd, List.filter_cons]

lemma construct_unfold (name_ : String) (columns_ : List (String × String))
    (rdb rtbl : String) (cluster_ : Cluster) (context_ : Context)
    (sk : Option ShardingKeyAST) (dp : String) (fs : FileSystem) :
    StorageDistributed.construct name_ columns_ rdb rtbl cluster_ context_ sk dp fs =
      ({ name := name_
         columns := columns_
         remote_database := rdb
         remote_table := rtbl
         context := context_
         cluster := cluster_
         sharding_key_expr := sk.map fun k => ⟨k.getColumnName⟩
         sharding_key_column_name :=
           match sk with
           | some k => k.getColumnName
           | none => ""
         write_enabled :=
           decide (cluster_.getLocalNodesNum + cluster_.pools.length < 2) || sk.isSome
         path := dp ++ escapeForFileName name_ ++ "/"
         directory_monitors :=
           (((fs.createDirectory (dp ++ escapeForFileName name_ ++ "/")).entriesOf
               (dp ++ escapeForFileName name_ ++ "/")).foldl
             (fun ms e => if e.isDirectory then emplaceMonitor ms e.name ⟨e.name⟩ else ms) [])
         external_tables := [] },
       fs.createDirectory (dp ++ escapeForFileName name_ ++ "/")) := by
  simp only [StorageDistributed.construct, StorageDistributed.createDirectoryMonitors]
  rw [foldl_createDirectoryMonitor]

/-- C1: on a constructed table, write_enabled equals the construction-time
condition (fewer than two targets, or a sharding key configured); write
throws the write-not-supported error exactly when write_enabled is false, and
on every table satisfying write_enabled it returns a sink built over the
retargeted insert query without raising. -/
theorem write_eligibility (name_ : String) (columns_ : List (String × String))
    (rdb rtbl : String) (cluster_ : Cluster) (context_ : Context)
    (sk : Option ShardingKeyAST) (dp : String) (fs : FileSystem) (q : ASTInsertQuery)
    (s : StorageDistributed)
    (hs : s = (StorageDistributed.construct name_ columns_ rdb rtbl cluster_ context_
        sk dp fs).1) :
    (s.write_enabled = true ↔
      (cluster_.getLocalNodesNum + cluster_.pools.length < 2 ∨ sk.isSome = true)) ∧
    ((∃ e, s.write q = Except.error e ∧ e.code = ErrorCodes.STORAGE_REQUIRES_PARAMETER) ↔
      s.write_enabled = false) ∧
    (s.write_enabled = true →
      s.write q = Except.ok
        { storage_name := s.name
          query := rewriteImplInsert q s.remote_database s.remote_table }) := by
  subst hs
  rw [construct_unfold]
  refine ⟨by simp, ?_, ?_⟩
  · by_cases hw : (decide (cluster_.getLocalNodesNum + cluster_.pools.length < 2) ||
        sk.isSome) = true
    · simp [StorageDistributed.write, hw]
    · simp only [Bool.not_eq_true] at hw
      simp [StorageDistributed.write, hw]
  · intro hw
    simp only at hw
    simp [StorageDistributed.write, hw]

/-- C1 witness: a cluster of two remote pools with a sharding key accepts
write and returns the sink over the retargeted insert query. -/
theorem write_eligibility_witness :
    (StorageDistributed.construct "t" [] "rd" "rt"
          { pools := [⟨0⟩, ⟨1⟩], local_nodes_num := 0 }
          sampleContext (some ⟨"k"⟩) "/data/" { dirs := [], entries := [] }).1.write_enabled =
        true ∧
      (StorageDistributed.construct "t" [] "rd" "rt"
          { pools := [⟨0⟩, ⟨1⟩], local_nodes_num := 0 }
          sampleContext (some ⟨"k"⟩) "/data/" { dirs := [], entries := [] }).1.write
          { database := "d0", table := "t0",
            select := some { database := none, table := none, rest := "sel" },
            rest := "values" } =
        Except.ok
          { storage_name := "t"
            query := rewriteImplInsert
              { database := "d0", table := "t0",
                select := some { database := none, table := none, rest := "sel" },
                rest := "values" } "rd" "rt" } :=
  ⟨by decide,
    (write_eligibility "t" [] "rd" "rt" { pools := [⟨0⟩, ⟨1⟩], local_nodes_num := 0 }
      sampleContext (some ⟨"k"⟩) "/data/" { dirs := [], entries := [] }
      { database := "d0", table := "t0",
        select := some { database := none, table := none, rest := "sel" },
        rest := "values" } _ rfl).2.2 (by decide)⟩

/-- C7: shutdown empties the monitor mapping and changes nothing else: every
other field of the table is preserved, the filesystem (the on-disk spool
state) is untouched, and a subsequent construction observes the same
filesystem state as at shutdown. -/
theorem shutdown_clears_monitors_only (s : StorageDistributed) (fs : FileSystem) :
    (s.shutdown fs).1.directory_monitors = [] ∧
    (s.shutdown fs).2 = fs ∧
    (s.shutdown fs).1.name = s.name ∧
    (s.shutdown fs).1.columns = s.columns ∧
    (s.shutdown fs).1.remote_database = s.remote_database ∧
    (s.shutdown fs).1.remote_table = s.remote_table ∧
    (s.shutdown fs).1.context = s.context ∧
    (s.shutdown fs).1.cluster = s.cluster ∧
    (s.shutdown fs).1.sharding_key_expr = s.sharding_key_expr ∧
    (s.shutdown fs).1.sharding_key_column_name = s.sharding_key_column_name ∧
    (s.shutdown fs).1.write_enabled = s.write_enabled ∧
    (s.shutdown fs).1.path = s.path ∧
    (s.shutdown fs).1.external_tables = s.external_tables ∧
    (∀ (n : String) (c : List (String × String)) (rdb rtbl : String) (cl : Cluster)
        (ctx : Context) (sk : Option ShardingKeyAST) (dp : String),
      StorageDistributed.construct n c rdb rtbl cl ctx sk dp (s.shutdown fs).2 =
        StorageDistributed.construct n c rdb rtbl cl ctx sk dp fs) :=
  ⟨rfl, rfl, rfl, rfl, rfl, rfl, rfl, rfl, rfl, rfl, rfl, rfl, rfl,
    fun _ _ _ _ _ _ _ _ => rfl⟩

/-- C8: construction creates the spool base directory only when it is absent,
and creates exactly one monitor per pre-existing subdirectory of the spool
path, keyed by the subdirectory's name; non-directory entries produce no
monitor. -/
theorem construct_monitors_per_subdirectory (name_ : String)
    (columns_ : List (String × String)) (rdb rtbl : String) (cluster_ : Cluster)
    (context_ : Context) (sk : Option ShardingKeyAST) (dp : String) (fs : FileSystem)
    (hnd : (((fs.createDirectory (dp ++ escapeForFileName name_ ++ "/")).entriesOf
        (dp ++ escapeForFileName name_ ++ "/")).map DirEntry.name).Nodup) :
    ((StorageDistributed.construct name_ columns_ rdb rtbl cluster_ context_ sk dp fs).2 =
        fs.createDirectory (dp ++ escapeForFileName name_ ++ "/")) ∧
    ((dp ++ escapeForFileName name_ ++ "/") ∈
        (StorageDistributed.construct name_ columns_ rdb rtbl cluster_ context_
          sk dp fs).2.dirs) ∧
    ((dp ++ escapeForFileName name_ ++ "/") ∈ fs.dirs →
      (StorageDistributed.construct name_ columns_ rdb rtbl cluster_ context_
          sk dp fs).2 = fs) ∧
    ((StorageDistributed.construct name_ columns_ rdb rtbl cluster_ context_
          sk dp fs).1.directory_monitors =
      (((StorageDistributed.construct name_ columns_ rdb rtbl cluster_ context_
            sk dp fs).2.entriesOf (dp ++ escapeForFileName name_ ++ "/")).filter
          (fun e => e.isDirectory)).map (fun e => (e.name, ⟨e.name⟩))) := by
  rw [construct_unfold]
  refine ⟨rfl, ?_, ?_, ?_⟩
  · by_cases hmem : (dp ++ escapeForFileName name_ ++ "/") ∈ fs.dirs <;>
      simp [FileSystem.createDirectory, hmem]
  · intro hmem
    simp [FileSystem.createDirectory, hmem]
  · simpa using foldl_emplace_of_nodup _ [] hnd (fun _ _ => rfl)

/-- C8 witness: a spool directory holding one subdirectory and one plain file
yields exactly the one monitor keyed by the subdirectory name. -/
theorem construct_monitors_per_subdirectory_witness :
    ((({ dirs := ["/data/t/"],
          entries := [("/data/t/",
            [{ name := "shard1", isDirectory := true },
              { name := "notes.txt", isDirectory := false }])] } :
          FileSystem).createDirectory ("/data/" ++ escapeForFileName "t" ++ "/")).entriesOf
        ("/data/" ++ escapeForFileName "t" ++ "/") |>.map DirEntry.name).Nodup ∧
      (StorageDistributed.construct "t" [] "rd" "rt" { pools := [], local_nodes_num := 1 }
          sampleContext none "/data/"
          { dirs := ["/data/t/"],
            entries := [("/data/t/",
              [{ name := "shard1", isDirectory := true },
                { name := "notes.txt", isDirectory := false }])] }).1.directory_monitors =
        [("shard1", ⟨"shard1"⟩)] := by
  have h := construct_monitors_per_subdirectory "t" [] "rd" "rt"
    { pools := [], local_nodes_num := 1 } sampleContext none "/data/"
    { dirs := ["/data/t/"],
      entries := [("/data/t/",
        [{ name := "shard1", isDirectory := true },
          { name := "notes.txt", isDirectory := false }])] } (by decide)
  exact ⟨by decide, h.2.2.2.trans (by decide)⟩

/-- C10: getColumn gives the virtual column factory precedence over the real
columns, falling back to the real column only when the factory does not
recognise the name; hasColumn holds exactly when the name is a virtual or a
real column. -/
theorem getColumn_virtual_precedence (vcf : VirtualColumnFactory) (s : StorageDistributed)
    (nameV nameR type : String) :
    (vcf.tryGetType nameV = some type →
      StorageDistributed.getColumn vcf s nameV = some (nameV, type)) ∧
    (vcf.tryGetType nameR = none →
      StorageDistributed.getColumn vcf s nameR = s.getRealColumn nameR) ∧
    (∀ n, StorageDistributed.hasColumn vcf s n = true ↔
      (vcf.hasColumn n = true ∨ s.hasRealColumn n = true)) := by
  refine ⟨fun h => ?_, fun h => ?_, fun n => ?_⟩
  · simp [StorageDistributed.getColumn, h]
  · simp [StorageDistributed.getColumn, h]
  · simp [StorageDistributed.hasColumn, Bool.or_eq_true]

/-- C10 witness: a factory recognising only the name of one virtual column
overrides the same-named real column of the sample table and falls back to
the real column for the other name. -/
theorem getColumn_virtual_precedence_witness :
    (sampleVCF.tryGetType "_table" = some "String" ∧
      StorageDistributed.getColumn sampleVCF sampleTable "_table" =
        some ("_table", "String") ∧
      sampleTable.hasRealColumn "_table" = true) ∧
    (sampleVCF.tryGetType "x" = none ∧
      StorageDistributed.getColumn sampleVCF sampleTable "x" =
        sampleTable.getRealColumn "x") ∧
    (StorageDistributed.hasColumn sampleVCF sampleTable "x" = true ↔
      (sampleVCF.hasColumn "x" = true ∨ sampleTable.hasRealColumn "x" = true)) :=
  ⟨⟨rfl, (getColumn_virtual_precedence sampleVCF sampleTable "_table" "x" "String").1 rfl,
      rfl⟩,
    ⟨rfl, (getColumn_virtual_precedence sampleVCF sampleTable "_table" "x" "String").2.1 rfl⟩,
    (getColumn_virtual_precedence sampleVCF sampleTable "_table" "x" "String").2.2 "x"⟩

end DB
